import Mathlib

/-!
Verification development for the `gpu-cpu` hardware-telemetry script
(`usr/opt/gpu-cpu.py`).  The Python source is shallowly embedded: every
external effect (subprocess output, file content, `psutil` results) is an
explicit input, Python exceptions become `Except` errors, and the Python
string/number builtins used by the script (`str.strip`, `str.split`,
`str.splitlines`, substring tests, `int`, `f"{x:.1f}"`) are modelled by
executable Lean functions below.
-/

/-! ### Models of the Python string builtins used by the script -/

/-- Model of Python `str.strip()` (whitespace on both ends). -/
def pyStrip (s : String) : String :=
  String.mk (((s.data.dropWhile Char.isWhitespace).reverse.dropWhile Char.isWhitespace).reverse)

/-- Helper for `pySplit`: split a character list on a separator. -/
def pySplitAux (sep : Char) : List Char → List Char → List (List Char)
  | [], acc => [acc.reverse]
  | c :: cs, acc =>
      if c = sep then acc.reverse :: pySplitAux sep cs []
      else pySplitAux sep cs (c :: acc)

/-- Model of Python `str.split(sep)` for a one-character separator:
`"a:b:c".split(":") = ["a","b","c"]`, `"".split(":") = [""]`. -/
def pySplit (sep : Char) (s : String) : List String :=
  (pySplitAux sep s.data []).map String.mk

/-- Model of Python `str.splitlines()` restricted to `\n` terminators:
a trailing newline does not produce a final empty line, and the empty
string yields no lines. -/
def pySplitlines (s : String) : List String :=
  if s.data = [] then []
  else
    let ps := pySplit '\n' s
    if ps.getLast? = some "" then ps.dropLast else ps

/-- Does the first character list start the second? -/
def startsWith : List Char → List Char → Bool
  | [], _ => true
  | _ :: _, [] => false
  | p :: ps, c :: cs => (p = c) && startsWith ps cs

/-- Helper for `pyContains`: substring test on character lists. -/
def pyContainsAux (pat : List Char) : List Char → Bool
  | [] => startsWith pat []
  | l :: ls => startsWith pat (l :: ls) || pyContainsAux pat ls

/-- Model of Python `pat in s` (substring containment). -/
def pyContains (pat s : String) : Bool :=
  pyContainsAux pat.data s.data

/-- No two consecutive underscores (part of Python's integer-literal
underscore rule). -/
def noDoubleUnderscore : List Char → Bool
  | [] => true
  | [_] => true
  | a :: b :: r => !(a = '_' && b = '_') && noDoubleUnderscore (b :: r)

/-- Valid digit run for Python `int`: nonempty, first and last characters
are digits, every character is a digit or an underscore, and underscores
are single (hence always between digits). -/
def pyDigitRun (l : List Char) : Bool :=
  match l with
  | [] => false
  | c :: _ =>
      c.isDigit && (l.getLast? = some '_') = false &&
      (match l.getLast? with | some d => d.isDigit | none => false) &&
      l.all (fun d => d.isDigit || d = '_') && noDoubleUnderscore l

/-- Numeric value of a digit run, skipping underscores. -/
def digitRunVal (l : List Char) : Nat :=
  (l.filter (fun c => c ≠ '_')).foldl (fun n c => 10 * n + (c.toNat - '0'.toNat)) 0

/-- Model of Python `int(s)` on decimal strings: surrounding whitespace is
stripped, one optional sign, then a digit run (underscores allowed between
digits); `none` models the `ValueError` Python raises otherwise. -/
def pyParseInt (s : String) : Option Int :=
  let t := (pyStrip s).data
  match t with
  | '+' :: r => if pyDigitRun r then some (digitRunVal r : Int) else none
  | '-' :: r => if pyDigitRun r then some (-(digitRunVal r : Int)) else none
  | r => if pyDigitRun r then some (digitRunVal r : Int) else none

/-- Temperatures are carried in exact thousandths of a degree (the thermal
zone file is literally in millidegrees; `psutil` floats are modelled by
their exact value in thousandths).  `tenthsRound m` is the number of tenths
obtained by rounding `m / 100` to the nearest integer, ties to even — the
rounding Python's fixed-point formatting applies. -/
def tenthsRound (m : Int) : Int :=
  let b := Int.ediv m 100
  let d := Int.emod m 100
  if d > 50 then b + 1
  else if d < 50 then b
  else if Int.emod b 2 = 0 then b else b + 1

/-- Render a nonnegative count of tenths as a one-decimal string. -/
def fmtTenths (n : Nat) : String :=
  toString (n / 10) ++ "." ++ toString (n % 10)

/-- Model of Python `f"{x:.1f}"` where `x = m / 1000`: round to tenths,
ties to even.  (Python's `-0.0` sign is not modelled; no claim touches
negative readings.) -/
def pyFormat1Milli (m : Int) : String :=
  let k := tenthsRound m
  if k < 0 then "-" ++ fmtTenths k.natAbs else fmtTenths k.natAbs

/-! ### Error model

`CmdErr` lists the exceptions `subprocess.check_output`/`check_call` can
raise here (no `timeout=` argument is ever passed, so
`subprocess.TimeoutExpired` cannot arise); `PyErr` are the exceptions a
probe body can let escape to its caller. -/

inductive CmdErr where
  | fileNotFound
  | calledProcessError
  deriving DecidableEq

inductive PyErr where
  | cmd (e : CmdErr)
  | valueError
  | indexError
  | typeError
  deriving DecidableEq

/-! ### CPU temperature (`get_cpu_temp`, source lines 10–26) -/

/-- One entry of `psutil.sensors_temperatures()`: a label and a current
temperature, carried in exact thousandths of a degree. -/
structure SensorEntry where
  label : String
  currentMilli : Int
  deriving DecidableEq

/-- Inputs of `get_cpu_temp`: the outcome of `psutil.sensors_temperatures()`
(which the script wraps in `try: ... except Exception`), and the content of
`/sys/class/thermal/thermal_zone0/temp` (`Except.error ()` models
`FileNotFoundError`). -/
structure CpuEnv where
  sensors : Except Unit (List (String × List SensorEntry))
  thermalZone : Except Unit String

/-- The scan of source lines 13–17: iterate the groups in order, and inside
each the entries in order, returning the first entry whose lowercased label
contains `"core"`; a raised `psutil` call yields no match. -/
def firstCoreMatch (s : Except Unit (List (String × List SensorEntry))) :
    Option SensorEntry :=
  match s with
  | .error _ => none
  | .ok groups =>
      (groups.map Prod.snd).flatten.find? (fun e => pyContains "core" e.label.toLower)

/-- `get_cpu_temp` (lines 10–26).  The first `try` block returns
`f"{entry.current:.1f}°C"` for the first core-labelled entry; otherwise the
thermal-zone file is read: a missing file is caught (`except
FileNotFoundError`) and falls through to `"N/A"`, while a non-integer
content makes `int(...)` raise a `ValueError` that nothing catches —
modelled as `Except.error PyErr.valueError`. -/
def get_cpu_temp (env : CpuEnv) : Except PyErr String :=
  match firstCoreMatch env.sensors with
  | some e => .ok (pyFormat1Milli e.currentMilli ++ "°C")
  | none =>
      match env.thermalZone with
      | .error _ => .ok "N/A"
      | .ok c =>
          match pyParseInt c with
          | none => .error .valueError
          | some m => .ok (pyFormat1Milli m ++ "°C")

/-! ### GPU probes (`get_nvidia_info`, `get_amd_info`, `get_intel_info`,
`get_nouveau_temp`, source lines 170–202) -/

/-- `get_nvidia_info` (lines 170–176), applied to the outcome of the
`nvidia-smi --query-gpu=temperature.gpu,utilization.gpu` invocation.
`temp, usage = output.decode().strip().split(",")` raises a `ValueError`
unless the split has exactly two fields. -/
def get_nvidia_info (raw : Except CmdErr String) : Except PyErr (String × String) :=
  match raw with
  | .error c => .error (.cmd c)
  | .ok s =>
      match pySplit ',' (pyStrip s) with
      | [t, u] => .ok (t ++ "°C", u ++ " (NVIDIA)")
      | _ => .error .valueError

/-- The per-line body of `get_amd_info`'s loop (lines 183–187): two
independent `if` tests; `line.split(":")[1]` raises an `IndexError` when
the line has no colon. -/
def amdScan : List String → String × String → Except PyErr (String × String)
  | [], st => .ok st
  | l :: ls, (t, u) =>
      match (if pyContains "GPU Temp" l then
               match (pySplit ':' l).get? 1 with
               | none => .error .indexError
               | some x => .ok (pyStrip x)
             else .ok t : Except PyErr String) with
      | .error e => .error e
      | .ok t' =>
          match (if pyContains "GPU Load" l then
                   match (pySplit ':' l).get? 1 with
                   | none => .error .indexError
                   | some x => .ok (pyStrip x)
                 else .ok u : Except PyErr String) with
          | .error e => .error e
          | .ok u' => amdScan ls (t', u')

/-- `get_amd_info` (lines 178–188), applied to the outcome of the
`radeontop -d 1 -l 1` invocation.  `temp` and `usage` start as `"N/A"`,
matching lines overwrite them (last match wins), and the return formats
`f"{temp}°C", f"{usage} (AMD)"` — note the suffixes are appended even to a
still-`"N/A"` field. -/
def get_amd_info (raw : Except CmdErr String) : Except PyErr (String × String) :=
  match raw with
  | .error c => .error (.cmd c)
  | .ok s =>
      match amdScan (pySplitlines s) ("N/A", "N/A") with
      | .error e => .error e
      | .ok (t, u) => .ok (t ++ "°C", u ++ " (AMD)")

/-- `get_intel_info` (lines 190–192): its body is a lone comment, so the
Python function returns `None`; the caller's tuple unpacking
`temp, usage = func()` then raises a `TypeError`.  That unpack failure is
folded into the probe's outcome here. -/
def get_intel_info (_u : Unit) : Except PyErr (String × String) :=
  .error .typeError

/-- `get_nouveau_temp` (lines 194–202), applied to the outcome of the
`nvidia-settings -q GPUCoreTemp -t` invocation.  Command failures are
caught (`except (FileNotFoundError, CalledProcessError)`) and give
`"N/A"`; a colon-free output makes `split(":")[1]` raise an uncaught
`IndexError`. -/
def get_nouveau_temp (raw : Except CmdErr String) : Except PyErr String :=
  match raw with
  | .error _ => .ok "N/A"
  | .ok s =>
      match (pySplit ':' (pyStrip s)).get? 1 with
      | none => .error .indexError
      | some x => .ok (pyStrip x ++ "°C (Nouveau)")

/-! ### GPU resolver (`get_gpu_temp_and_usage`, source lines 94–128)

One *attempt* is lines 96–114: the `for func in [...]` loop over the three
vendor probes followed by the Nouveau fallback.  The full resolver then
recurses (lines 116–119): when the attempt falls through with
`temp == "N/A" and usage == "N/A"` it calls `install_gpu_dependencies()`
and then calls itself again, with no depth bound.  The recursion is
embedded with an explicit `fuel` cutoff: a result of `none` means the
computation is still recursing after `fuel` nested attempts.  The attempt
index `k` selects the external-world snapshot seen by that attempt, so a
repair that makes a tool appear is representable. -/

/-- The external inputs of one attempt of the GPU chain: the raw outcomes
of the `nvidia-smi`, `radeontop` and `nvidia-settings` invocations. -/
structure GpuEnv where
  nvidia : Except CmdErr String
  amd : Except CmdErr String
  nouveau : Except CmdErr String

/-- One iteration of the loop at lines 99–105: on a probe exception the
pair `(temp, usage)` is left unchanged; on success it is overwritten and,
if both components differ from `"N/A"`, returned (`Sum.inl`). -/
def probeStep (st : String × String) (r : Except PyErr (String × String)) :
    Sum (String × String) (String × String) :=
  match r with
  | .ok (t, u) => if t ≠ "N/A" ∧ u ≠ "N/A" then .inl (t, u) else .inr (t, u)
  | .error _ => .inr st

/-- Lines 96–114: the three vendor probes in order, then the Nouveau
fallback (`temp = get_nouveau_temp()`, returning `(temp, "N/A")` when its
result differs from `"N/A"`).  `Sum.inl` is an early `return`; `Sum.inr`
is the fall-through state of `(temp, usage)`. -/
def gpuAttempt (e : GpuEnv) : Sum (String × String) (String × String) :=
  match probeStep ("N/A", "N/A") (get_nvidia_info e.nvidia) with
  | .inl r => .inl r
  | .inr st1 =>
      match probeStep st1 (get_amd_info e.amd) with
      | .inl r => .inl r
      | .inr st2 =>
          match probeStep st2 (get_intel_info ()) with
          | .inl r => .inl r
          | .inr st3 =>
              match get_nouveau_temp e.nouveau with
              | .ok t => if t ≠ "N/A" then .inl (t, "N/A") else .inr (t, st3.2)
              | .error _ => .inr st3

/-- Lines 94–128 with a fuel bound.  The second component counts the
`install_gpu_dependencies()` invocations made (line 117): one per failed
attempt.  `(none, c)` means the recursion was still running after the fuel
ran out, having already performed `c` repair invocations. -/
def gpuResolveCount (env : Nat → GpuEnv) : Nat → Nat → Option (String × String) × Nat
  | _, 0 => (none, 0)
  | k, fuel + 1 =>
      match gpuAttempt (env k) with
      | .inl r => (some r, 0)
      | .inr (t, u) =>
          if t = "N/A" ∧ u = "N/A" then
            match gpuResolveCount env (k + 1) fuel with
            | (r, c) => (r, c + 1)
          else (some (t, u), 0)

/-- `get_gpu_temp_and_usage`: the value the (possibly recursive) resolver
returns within `fuel` nested attempts starting at attempt `k`; `none` when
it is still recursing. -/
def get_gpu_temp_and_usage (env : Nat → GpuEnv) (k fuel : Nat) :
    Option (String × String) :=
  (gpuResolveCount env k fuel).1

/-- An attempt on which every probe fails and the chain falls through with
the untouched `("N/A", "N/A")` state. -/
def allProbesFail (e : GpuEnv) : Prop :=
  gpuAttempt e = Sum.inr ("N/A", "N/A")

instance (e : GpuEnv) : Decidable (allProbesFail e) := by
  unfold allProbesFail; infer_instance

/-- The chain of `gpuAttempt` with the Intel step removed, used to show the
Intel probe is inert. -/
def gpuAttemptNoIntel (e : GpuEnv) : Sum (String × String) (String × String) :=
  match probeStep ("N/A", "N/A") (get_nvidia_info e.nvidia) with
  | .inl r => .inl r
  | .inr st1 =>
      match probeStep st1 (get_amd_info e.amd) with
      | .inl r => .inl r
      | .inr st2 =>
          match get_nouveau_temp e.nouveau with
          | .ok t => if t ≠ "N/A" then .inl (t, "N/A") else .inr (t, st2.2)
          | .error _ => .inr st2

/-- The resolver rebuilt on `gpuAttemptNoIntel`. -/
def gpuResolveCountNoIntel (env : Nat → GpuEnv) :
    Nat → Nat → Option (String × String) × Nat
  | _, 0 => (none, 0)
  | k, fuel + 1 =>
      match gpuAttemptNoIntel (env k) with
      | .inl r => (some r, 0)
      | .inr (t, u) =>
          if t = "N/A" ∧ u = "N/A" then
            match gpuResolveCountNoIntel env (k + 1) fuel with
            | (r, c) => (r, c + 1)
          else (some (t, u), 0)

/-! ### Dependency repair (`install_gpu_dependencies`, source lines 28–49) -/

/-- One subprocess call made by `install_gpu_dependencies`: the
`which <pm>` presence probe or a `<pm> install -y <pkg>` attempt. -/
inductive RepairCmd where
  | which (pm : String)
  | install (pm pkg : String)
  deriving DecidableEq

/-- The `package_managers` dict of lines 30–35, in its (insertion-ordered)
iteration order. -/
def packageManagers : List (String × List String) :=
  [("apt-get", ["nvidia-utils", "radeontop", "lm-sensors"]),
   ("dnf", ["nvidia-settings", "radeontop", "lm-sensors"]),
   ("pacman", ["nvidia", "radeontop", "lm-sensors"]),
   ("zypper", ["nvidia-gl", "radeontop", "lm-sensors"])]

/-- The loop of lines 37–47 over a remaining manager list.  `present pm`
is the success of `subprocess.check_call(["which", pm])` (a missing
manager exits non-zero, the caught `CalledProcessError`; the `which`
binary itself is assumed present).  On the first present manager every
package is install-attempted — each install's own `CalledProcessError` is
caught and ignored, so the trace does not depend on install outcomes — and
the function returns at once. -/
def installGo (present : String → Bool) : List (String × List String) → List RepairCmd
  | [] => []
  | (pm, pkgs) :: rest =>
      if present pm then RepairCmd.which pm :: pkgs.map (RepairCmd.install pm)
      else RepairCmd.which pm :: installGo present rest

/-- `install_gpu_dependencies` (lines 28–49) as the trace of subprocess
calls it makes; it raises nothing and returns `None` to its caller on
every path (when no manager is present it only prints a warning). -/
def install_gpu_dependencies (present : String → Bool) : List RepairCmd :=
  installGo present packageManagers

/-! ### Subprocess invocations of the probes (Command Runner, §4.1) -/

/-- A `subprocess.check_output` invocation: its argument vector and the
`timeout=` keyword it passes (`none` when the call site passes no
timeout, so the wait is unbounded and `subprocess.TimeoutExpired` can
never be raised for it). -/
structure Invocation where
  argv : List String
  timeoutSeconds : Option Nat
  deriving DecidableEq

/-- The `nvidia-smi` combined query of lines 172–174. -/
def nvidiaCombinedCall : Invocation :=
  ⟨["nvidia-smi", "--query-gpu=temperature.gpu,utilization.gpu",
    "--format=csv,noheader"], none⟩

/-- The `radeontop` sampling call of line 180 (it blocks for its `-d 1`
one-second sampling window). -/
def radeontopCall : Invocation :=
  ⟨["radeontop", "-d", "1", "-l", "1"], none⟩

/-- The `nvidia-settings` call of line 197. -/
def nouveauCall : Invocation :=
  ⟨["nvidia-settings", "-q", "GPUCoreTemp", "-t"], none⟩

/-- Every external-tool invocation made by the probes of the active GPU
chain (`get_gpu_temp_and_usage`). -/
def probeCalls : List Invocation :=
  [nvidiaCombinedCall, radeontopCall, nouveauCall]

/-! ### Polling tick (`update_temps`, source lines 142–156) -/

/-- The three display labels (module-level `ttk.Label` texts). -/
structure Labels where
  cpu : String
  gpu : String
  ram : String
  deriving DecidableEq

/-- The outcomes a single tick observes: `get_cpu_temp()` / `get_cpu_usage()`
(combined into the CPU label inside one `try`), `get_gpu_temp_and_usage()`,
and `get_ram_info()`; `Except.error ()` models any raised exception. -/
structure TickEnv where
  cpuTemp : Except Unit String
  cpuUsage : Except Unit String
  gpu : Except Unit (String × String)
  ram : Except Unit String

/-- `update_temps` (lines 142–156) acting on the labels.  The CPU and GPU
updates are each wrapped in their own `try/except`; the RAM update and the
`root.after(1000, update_temps)` re-scheduling are not, so a RAM failure
leaves the RAM label untouched and — the returned `Bool` — never schedules
the next tick. -/
def update_temps (e : TickEnv) (st : Labels) : Labels × Bool :=
  let st1 :=
    match e.cpuTemp, e.cpuUsage with
    | .ok t, .ok u => { st with cpu := "CPU: " ++ t ++ ", " ++ u }
    | _, _ => st
  let st2 :=
    match e.gpu with
    | .ok (t, u) => { st1 with gpu := "GPU: " ++ t ++ ", " ++ u }
    | .error _ => st1
  match e.ram with
  | .ok r => ({ st2 with ram := "RAM: " ++ r }, true)
  | .error _ => (st2, false)

/-- `n` scheduled executions of `update_temps` from an initial label state:
each tick runs only if the previous one re-scheduled (`root.after`); once a
tick fails to re-schedule, the labels never change again. -/
def runTicks (env : Nat → TickEnv) (st0 : Labels) : Nat → Labels × Bool
  | 0 => (st0, true)
  | n + 1 =>
      match runTicks env st0 n with
      | (st, true) => update_temps (env n) st
      | (st, false) => (st, false)

/-! ### Concrete environments used by the scenario theorems -/

/-- A world in which `nvidia-smi`, `radeontop` and `nvidia-settings` are
all absent, at every attempt. -/
def allFailEnvA : Nat → GpuEnv :=
  fun _ => ⟨.error .fileNotFound, .error .fileNotFound, .error .fileNotFound⟩

/-- A world in which the GPU tools are installed but every one of them
exits non-zero, at every attempt. -/
def allFailEnvB : Nat → GpuEnv :=
  fun _ => ⟨.error .calledProcessError, .error .calledProcessError,
            .error .calledProcessError⟩

/-- `nvidia-smi` is absent, `radeontop` exits 0 printing a load line but
no temperature line, and `nvidia-settings` would succeed. -/
def c2Attempt : GpuEnv :=
  ⟨.error .fileNotFound, .ok "GPU Load: 30%\n", .ok "GPUCoreTemp: 55"⟩

/-- `nvidia-smi` prints the combined line `70, 55 %` and `radeontop`
would also succeed with full data. -/
def c5Attempt : GpuEnv :=
  ⟨.ok "70, 55 %", .ok "GPU Temp: 80C\nGPU Load: 90%", .error .fileNotFound⟩

/-- `nvidia-smi` prints the combined line `62, 30 %` of the spec's
scenario. -/
def c6Attempt : GpuEnv :=
  ⟨.ok "62, 30 %\n", .error .fileNotFound, .error .fileNotFound⟩

/-- Helper: on an environment whose every attempt fails completely, the
resolver performs one repair invocation per nested attempt and is still
recursing when the fuel runs out. -/
theorem gpuResolveCount_of_all_fail (env : Nat → GpuEnv)
    (h : ∀ n, allProbesFail (env n)) :
    ∀ fuel k, gpuResolveCount env k fuel = (none, fuel) := by
  intro fuel
  induction fuel with
  | zero => intro k; rfl
  | succ f ih =>
      intro k
      have hk := h k
      unfold allProbesFail at hk
      simp [gpuResolveCount, hk, ih]

/-! ### Claim theorems -/

/-- Claim C1 (amended).  When every GPU probe fails at every attempt, the
resolver does **not** repair once, retry once and give up: each failed
attempt invokes `install_gpu_dependencies()` again and recurses with no
depth bound.  Exploring the recursion to depth `fuel` performs exactly
`fuel` repair invocations and still yields no result — in particular the
`("N/A", "N/A")` sentinel is never returned while the failure persists. -/
theorem gpu_repair_unbounded_recursion (env : Nat → GpuEnv)
    (h : ∀ n, allProbesFail (env n)) (k fuel : Nat) :
    gpuResolveCount env k fuel = (none, fuel) :=
  gpuResolveCount_of_all_fail env h fuel k

/-- Witness for `gpu_repair_unbounded_recursion` at a concrete
all-tools-absent world and fuel 4. -/
theorem gpu_repair_unbounded_recursion_witness :
    gpuResolveCount allFailEnvA 0 4 = (none, 4) :=
  gpu_repair_unbounded_recursion allFailEnvA (fun _ => rfl) 0 4

/-- Claim C1 counterexample.  With every probe failing, within one tick
the repair action has already been invoked twice after two nested
attempts (the claim allows exactly one repair per tick), and no
unavailable sentinel has been returned. -/
theorem gpu_repair_not_once :
    (gpuResolveCount allFailEnvB 0 2).2 = 2 ∧
    (gpuResolveCount allFailEnvB 0 2).1 = none :=
  ⟨rfl, rfl⟩

/-- Claim C5 (amended).  The resolver returns the first probe, in the
order NVIDIA → AMD → Intel → Nouveau, whose returned pair has both
components different from `"N/A"` — first-listed wins even when a later
probe would also succeed — but when every probe fails it does not return
the unavailable sentinel: it repairs and recurses, producing no reading
while the failure persists. -/
theorem gpu_resolver_first_success :
    (∀ (env : Nat → GpuEnv) (k fuel : Nat) (t u : String),
        get_nvidia_info (env k).nvidia = .ok (t, u) → t ≠ "N/A" → u ≠ "N/A" →
        get_gpu_temp_and_usage env k (fuel + 1) = some (t, u)) ∧
    (∀ (env : Nat → GpuEnv) (k fuel : Nat) (pe : PyErr) (t u : String),
        get_nvidia_info (env k).nvidia = .error pe →
        get_amd_info (env k).amd = .ok (t, u) → t ≠ "N/A" → u ≠ "N/A" →
        get_gpu_temp_and_usage env k (fuel + 1) = some (t, u)) ∧
    (∀ (env : Nat → GpuEnv) (k fuel : Nat),
        (∀ n, allProbesFail (env n)) → get_gpu_temp_and_usage env k fuel = none) := by
  refine ⟨?_, ?_, ?_⟩
  · intro env k fuel t u h h1 h2
    simp [get_gpu_temp_and_usage, gpuResolveCount, gpuAttempt, probeStep, h, h1, h2]
  · intro env k fuel pe t u h0 h h1 h2
    simp [get_gpu_temp_and_usage, gpuResolveCount, gpuAttempt, probeStep, h0, h, h1, h2]
  · intro env k fuel h
    unfold get_gpu_temp_and_usage
    rw [gpuResolveCount_of_all_fail env h fuel k]

/-- Witness for `gpu_resolver_first_success`: NVIDIA answers first and its
reading is returned even though the AMD probe would also succeed. -/
theorem gpu_resolver_first_success_witness :
    get_gpu_temp_and_usage (fun _ => c5Attempt) 0 1 = some ("70°C", " 55 % (NVIDIA)") :=
  gpu_resolver_first_success.1 (fun _ => c5Attempt) 0 0 "70°C" " 55 % (NVIDIA)"
    rfl (by decide) (by decide)

/-- Claim C5 counterexample.  With every probe failing persistently the
resolver never returns the `{value: None, source: NONE}` sentinel — after
six nested attempts it is still recursing and has produced no reading. -/
theorem gpu_resolver_no_sentinel :
    get_gpu_temp_and_usage allFailEnvA 0 6 = none :=
  rfl

/-- Claim C9.  The Intel probe's body is an empty stub: it always ends in
the `TypeError` outcome, the chain's Intel step never changes the resolver
state (so it never short-circuits there), and the whole resolver computes
the same function as the chain with the Intel step deleted. -/
theorem intel_probe_inert :
    (∀ u : Unit, get_intel_info u = Except.error PyErr.typeError) ∧
    (∀ (st : String × String) (u : Unit),
        probeStep st (get_intel_info u) = Sum.inr st) ∧
    (∀ (env : Nat → GpuEnv) (k fuel : Nat),
        gpuResolveCount env k fuel = gpuResolveCountNoIntel env k fuel) := by
  refine ⟨fun _ => rfl, fun _ _ => rfl, ?_⟩
  intro env k fuel
  induction fuel generalizing k with
  | zero => rfl
  | succ f ih =>
      have hA : gpuAttempt (env k) = gpuAttemptNoIntel (env k) := rfl
      rcases hx : gpuAttemptNoIntel (env k) with r | ⟨t, u⟩
      · simp [gpuResolveCount, gpuResolveCountNoIntel, hA, hx]
      · by_cases ht : t = "N/A" ∧ u = "N/A"
        · simp [gpuResolveCount, gpuResolveCountNoIntel, hA, hx, ht, ih]
        · simp [gpuResolveCount, gpuResolveCountNoIntel, hA, hx, ht]

/-- Claim C2 (code bug, evaluated at the failing input).  When `radeontop`
exits 0 printing a load line but no temperature line, `get_amd_info`
formats its still-unset temperature sentinel into `"N/A°C"`; because that
string differs from `"N/A"`, the resolver's both-fields check passes and
the chain short-circuits at AMD with a bogus temperature instead of
proceeding to the next vendor — even though the Nouveau probe of this very
environment would have succeeded. -/
theorem amd_partial_short_circuit :
    get_amd_info (Except.ok "GPU Load: 30%\n") = .ok ("N/A°C", "30% (AMD)") ∧
    get_gpu_temp_and_usage (fun _ => c2Attempt) 0 1 = some ("N/A°C", "30% (AMD)") ∧
    get_nouveau_temp c2Attempt.nouveau = .ok "55°C (Nouveau)" :=
  ⟨rfl, rfl, rfl⟩

/-- Claim C3 counterexample.  With the `psutil` source raising and the
thermal-zone file containing the non-integer text `"abc"`, `int(...)`
raises a `ValueError` that `get_cpu_temp` does not catch (its `except`
clause only covers `FileNotFoundError`): the resolution escapes with an
exception instead of returning `"N/A"`. -/
theorem cpu_temp_parse_raises :
    get_cpu_temp ⟨Except.error (), Except.ok "abc"⟩ = Except.error PyErr.valueError :=
  rfl

/-- Claim C3 (amended).  On the thermal-zone fallback only a missing file
is converted to the `"N/A"` sentinel; any content that is not a Python
integer literal makes the resolution raise a `ValueError` that propagates
past `get_cpu_temp` (it is caught only by the polling loop). -/
theorem cpu_thermal_error_policy :
    (∀ env : CpuEnv, firstCoreMatch env.sensors = none →
        env.thermalZone = Except.error () → get_cpu_temp env = Except.ok "N/A") ∧
    (∀ (env : CpuEnv) (c : String), firstCoreMatch env.sensors = none →
        env.thermalZone = Except.ok c → pyParseInt c = none →
        get_cpu_temp env = Except.error PyErr.valueError) := by
  constructor
  · intro env h1 h2
    unfold get_cpu_temp
    rw [h1, h2]
  · intro env c h1 h2 h3
    unfold get_cpu_temp
    rw [h1, h2]
    simp [h3]

/-- Witness for `cpu_thermal_error_policy` at a concrete environment. -/
theorem cpu_thermal_error_policy_witness :
    get_cpu_temp ⟨Except.error (), Except.ok "12x"⟩ = Except.error PyErr.valueError :=
  cpu_thermal_error_policy.2 ⟨Except.error (), Except.ok "12x"⟩ "12x" rfl rfl rfl

/-- Claim C4 counterexample.  The NVIDIA combined query is issued with no
`timeout=` argument at all (`subprocess.check_output` waits unboundedly),
so the invocation carries no bounded wait and a `TimedOut` classification
can never arise for it. -/
theorem nvidia_call_has_no_timeout :
    nvidiaCombinedCall.timeoutSeconds = none ∧ nvidiaCombinedCall ∈ probeCalls :=
  ⟨rfl, by decide⟩

/-- Claim C4 (amended).  No external-tool invocation made by a GPU probe
passes any timeout: every probe subprocess call waits unboundedly, and the
only failure classifications in the code are `FileNotFoundError` and
`CalledProcessError`. -/
theorem probe_calls_unbounded_wait :
    ∀ c ∈ probeCalls, c.timeoutSeconds = none := by
  decide

/-- Witness for `probe_calls_unbounded_wait` at the `radeontop` call. -/
theorem probe_calls_unbounded_wait_witness :
    radeontopCall.timeoutSeconds = none :=
  probe_calls_unbounded_wait radeontopCall (by decide)

/-- Helper: `get_nvidia_info` raises a `ValueError` whenever the stripped
output does not split into exactly two comma-separated fields. -/
theorem get_nvidia_info_wrong_fields (raw : String)
    (h : (pySplit ',' (pyStrip raw)).length ≠ 2) :
    get_nvidia_info (Except.ok raw) = Except.error PyErr.valueError := by
  rcases hx : pySplit ',' (pyStrip raw) with _ | ⟨a, _ | ⟨b, _ | ⟨c, tl⟩⟩⟩
  · simp [get_nvidia_info, hx]
  · simp [get_nvidia_info, hx]
  · exact absurd (by rw [hx]; rfl) h
  · simp [get_nvidia_info, hx]

/-- Claim C6 counterexample.  For the combined-query output `"62, 30 %"`
the code produces the usage string `" 30 % (NVIDIA)"` — the field keeps
the space after the comma and the space before `%` — not the claimed
`"30% (NVIDIA)"`. -/
theorem nvidia_scenario_usage_spacing :
    get_nvidia_info (Except.ok "62, 30 %") = .ok ("62°C", " 30 % (NVIDIA)") ∧
    (" 30 % (NVIDIA)" : String) ≠ "30% (NVIDIA)" :=
  ⟨rfl, by decide⟩

/-- Claim C6 (amended).  For the combined-query line `"62, 30 %"` the GPU
reading is temperature `"62°C"` and usage `" 30 % (NVIDIA)"` (the field's
spacing is preserved verbatim); and whenever the output does not split
into exactly two comma-separated fields the NVIDIA probe raises a
`ValueError`, which the resolver catches, leaving its state unchanged and
proceeding to the next vendor. -/
theorem nvidia_combined_parse :
    (get_nvidia_info (Except.ok "62, 30 %") = .ok ("62°C", " 30 % (NVIDIA)") ∧
     get_gpu_temp_and_usage (fun _ => c6Attempt) 0 1 = some ("62°C", " 30 % (NVIDIA)")) ∧
    (∀ raw : String, (pySplit ',' (pyStrip raw)).length ≠ 2 →
        get_nvidia_info (Except.ok raw) = Except.error PyErr.valueError) ∧
    (∀ (st : String × String) (raw : String),
        (pySplit ',' (pyStrip raw)).length ≠ 2 →
        probeStep st (get_nvidia_info (Except.ok raw)) = Sum.inr st) :=
  ⟨⟨rfl, rfl⟩,
   fun raw h => get_nvidia_info_wrong_fields raw h,
   fun st raw h => by rw [get_nvidia_info_wrong_fields raw h]; rfl⟩

/-- Witness for `nvidia_combined_parse`: a one-field output fails the
parse and the chain state passes through unchanged. -/
theorem nvidia_combined_parse_witness :
    probeStep ("N/A", "N/A") (get_nvidia_info (Except.ok "62")) =
      Sum.inr ("N/A", "N/A") :=
  nvidia_combined_parse.2.2 ("N/A", "N/A") "62" (by decide)

/-- Claim C7.  If the `psutil` enumeration raises or yields no entry whose
lowercased label contains `"core"`, and the thermal-zone file contains
`"45231"`, then the CPU reading is `"45.2°C"` (45231 millidegrees → 45.2,
produced by the thermal-zone branch); and whenever a core-labelled entry
exists, the reading comes from that entry alone — the thermal-zone file is
never consulted. -/
theorem cpu_thermal_scenario :
    (∀ env : CpuEnv, firstCoreMatch env.sensors = none →
        env.thermalZone = Except.ok "45231" → get_cpu_temp env = Except.ok "45.2°C") ∧
    (∀ (env : CpuEnv) (e : SensorEntry), firstCoreMatch env.sensors = some e →
        get_cpu_temp env = Except.ok (pyFormat1Milli e.currentMilli ++ "°C")) := by
  constructor
  · intro env h1 h2
    unfold get_cpu_temp
    rw [h1, h2]
    rfl
  · intro env e h
    unfold get_cpu_temp
    rw [h]

/-- Witness for `cpu_thermal_scenario` at a concrete environment (sensor
enumeration raised, thermal-zone file reads `"45231"`). -/
theorem cpu_thermal_scenario_witness :
    get_cpu_temp ⟨Except.error (), Except.ok "45231"⟩ = Except.ok "45.2°C" :=
  cpu_thermal_scenario.1 ⟨Except.error (), Except.ok "45231"⟩ rfl rfl

/-- Claim C8.  `install_gpu_dependencies` probes the four package managers
in the fixed dict order; for the first one whose `which` probe succeeds it
attempts to install exactly that manager's fixed package list (the trace
does not depend on any install outcome — each install's failure is caught
and ignored) and returns at once, probing no later manager; when no
manager is present it probes all four and installs nothing.  On every path
it raises nothing and returns `None` to its caller. -/
theorem repair_first_manager :
    (∀ (present : String → Bool) (pm : String) (pkgs : List String),
        packageManagers.find? (fun x => present x.1) = some (pm, pkgs) →
        install_gpu_dependencies present =
          ((packageManagers.map Prod.fst).takeWhile (fun q => !present q)).map
              RepairCmd.which
            ++ RepairCmd.which pm :: pkgs.map (RepairCmd.install pm)) ∧
    (∀ present : String → Bool,
        packageManagers.find? (fun x => present x.1) = none →
        install_gpu_dependencies present =
          (packageManagers.map Prod.fst).map RepairCmd.which) := by
  constructor
  · intro present pm pkgs h
    cases h1 : present "apt-get" <;> cases h2 : present "dnf" <;>
      cases h3 : present "pacman" <;> cases h4 : present "zypper" <;>
      simp_all [install_gpu_dependencies, installGo, packageManagers]
  · intro present h
    cases h1 : present "apt-get" <;> cases h2 : present "dnf" <;>
      cases h3 : present "pacman" <;> cases h4 : present "zypper" <;>
      simp_all [install_gpu_dependencies, installGo, packageManagers]

/-- Witness for `repair_first_manager`: with only `dnf` present, the trace
probes `apt-get`, then probes `dnf` and installs exactly its list. -/
theorem repair_first_manager_witness :
    install_gpu_dependencies (fun s => s == "dnf") =
      (((packageManagers.map Prod.fst).takeWhile
          (fun q => !(fun s => s == "dnf") q)).map RepairCmd.which
        ++ RepairCmd.which "dnf" ::
            (["nvidia-settings", "radeontop", "lm-sensors"].map
              (RepairCmd.install "dnf"))) :=
  repair_first_manager.1 (fun s => s == "dnf") "dnf"
    ["nvidia-settings", "radeontop", "lm-sensors"] rfl

/-- Claim C10.  A tick whose RAM query raises has already rewritten the
CPU and GPU labels (their updates precede the RAM line and sit in their
own `try` blocks), leaves the RAM label untouched, and never reaches
`root.after`, so the next tick is not scheduled; and once a tick fails to
re-schedule, the labels are frozen for every later tick. -/
theorem ram_failure_stops_polling :
    (∀ (e : TickEnv) (st : Labels) (t u g1 g2 : String),
        e.ram = Except.error () → e.cpuTemp = Except.ok t →
        e.cpuUsage = Except.ok u → e.gpu = Except.ok (g1, g2) →
        update_temps e st =
          ({ cpu := "CPU: " ++ t ++ ", " ++ u,
             gpu := "GPU: " ++ g1 ++ ", " ++ g2,
             ram := st.ram }, false)) ∧
    (∀ (env : Nat → TickEnv) (st0 : Labels) (n m : Nat),
        (runTicks env st0 n).2 = false → n ≤ m →
        runTicks env st0 m = runTicks env st0 n) := by
  constructor
  · intro e st t u g1 g2 h1 h2 h3 h4
    obtain ⟨sc, sg, sr⟩ := st
    simp [update_temps, h1, h2, h3, h4]
  · intro env st0 n m hdead hle
    induction hle with
    | refl => rfl
    | step hnm ih =>
        rename_i m'
        cases hy : runTicks env st0 n with
        | mk st b =>
            have hb : b = false := by rw [hy] at hdead; exact hdead
            subst hb
            have hx : runTicks env st0 m' = (st, false) := by rw [ih, hy]
            simp [runTicks, hx]

/-- The tick environment of the witness: CPU and GPU succeed, the RAM
query raises. -/
def ramFailTick : TickEnv :=
  ⟨Except.ok "45.2°C", Except.ok "12.0%",
   Except.ok ("62°C", " 30 % (NVIDIA)"), Except.error ()⟩

/-- The initial label state of the widget (`"CPU: ..."` etc.). -/
def labels0 : Labels :=
  ⟨"CPU: ...", "GPU: ...", "RAM: ..."⟩

/-- Witness for `ram_failure_stops_polling` at a concrete tick. -/
theorem ram_failure_stops_polling_witness :
    update_temps ramFailTick labels0 =
      ({ cpu := "CPU: 45.2°C, 12.0%",
         gpu := "GPU: 62°C,  30 % (NVIDIA)",
         ram := "RAM: ..." }, false) :=
  ram_failure_stops_polling.1 ramFailTick labels0 "45.2°C" "12.0%"
    "62°C" " 30 % (NVIDIA)" rfl rfl rfl rfl
